import Mathlib

/-!
Verification development for the httpreplay packet-to-stream reconstruction
pipeline (src/httpreplay/smegma.py and src/httpreplay/reader.py).

The Python source is shallowly embedded: Python bytes become `List Nat`,
Python ints (sequence and acknowledgement numbers, which dpkt yields as
unsigned 32-bit values but which Python widens on arithmetic) become `Int`,
Python dicts become association lists with unique keys, and Python
exceptions become `Except` errors.  External collaborators (dpkt body
parsing beyond TLS record framing, the tlslite record-layer decryption, and
the MD5 inside JA3) are modeled as parameters or classification-level
functions, exactly as the specification scopes them out in its section 1.
-/

/-- Python bytes objects are lists of byte values. -/
abbrev Bytes := List Nat

deriving instance DecidableEq for Except

/-- Flow key: the four-tuple (src ip, src port, dst ip, dst port). -/
abbrev Four := String × Nat × String × Nat

/-- Association-list lookup, modelling Python dict membership and subscript. -/
def alFind {κ α : Type} [DecidableEq κ] : List (κ × α) → κ → Option α
  | [], _ => none
  | (k2, v) :: rest, k => if k2 = k then some v else alFind rest k

/-- Association-list key removal, modelling dict.pop.  Keys are unique by
construction, so removing the first occurrence removes the only one. -/
def alErase {κ α : Type} [DecidableEq κ] : List (κ × α) → κ → List (κ × α)
  | [], _ => []
  | (k2, v) :: rest, k => if k2 = k then rest else (k2, v) :: alErase rest k

/-- Insertion of a fresh key, modelling dict assignment on an absent key
(the source only assigns keys it has just checked to be absent), keeping
Python dict insertion order. -/
def alInsert {κ α : Type} (l : List (κ × α)) (k : κ) (v : α) : List (κ × α) :=
  l ++ [(k, v)]

/-- In-place value update for an existing key, modelling mutation of the
object stored in a dict slot. -/
def alUpdate {κ α : Type} [DecidableEq κ] (l : List (κ × α)) (k : κ) (v : α) :
    List (κ × α) :=
  l.map fun kv => if kv.1 = k then (k, v) else kv

/-- A framed TLS record: content type, the two version bytes, and the body
(dpkt.ssl.TLSRecord: 5-byte header followed by a length-delimited body). -/
structure TLSRec where
  rtype : Nat
  vmaj : Nat
  vmin : Nat
  rdata : Bytes
deriving DecidableEq, Repr

/-- Loop of dpkt.ssl.tls_multi_factory: starting at offset i, frame whole
records while at least 5 header bytes remain; a version field outside
SSL3_VERSION_BYTES (0x0300..0x0303) raises SSL3Exception; a body extending
past the buffer (dpkt.NeedData) stops the loop.  Returns the records and
the number of consumed bytes.  Fuel decreases every iteration and the
offset advances by at least 5, so buffer length + 1 fuel suffices. -/
def tlsFactoryLoop : Nat → Bytes → Nat → List TLSRec → Except Unit (List TLSRec × Nat)
  | 0, _, i, acc => .ok (acc.reverse, i)
  | fuel + 1, buf, i, acc =>
    if i + 5 ≤ buf.length then
      if buf.getD (i + 1) 0 = 3 ∧ buf.getD (i + 2) 0 ≤ 3 then
        let len := buf.getD (i + 3) 0 * 256 + buf.getD (i + 4) 0
        if i + 5 + len ≤ buf.length then
          tlsFactoryLoop fuel buf (i + 5 + len)
            (⟨buf.getD i 0, buf.getD (i + 1) 0, buf.getD (i + 2) 0,
              (buf.drop (i + 5)).take len⟩ :: acc)
        else .ok (acc.reverse, i)
      else .error ()
    else .ok (acc.reverse, i)

/-- dpkt.ssl.tls_multi_factory on a whole buffer. -/
def tlsMultiFactory (buf : Bytes) : Except Unit (List TLSRec × Nat) :=
  tlsFactoryLoop (buf.length + 1) buf 0 []

/-- Parsed TLS record body.  dpkt.ssl.RECORD_TYPES body parsing is modeled
at classification level: a handshake record is a ClientHello or ServerHello
according to its first body byte (the handshake message type), which is
exactly what the isinstance checks of TLSStream.state_init observe. -/
inductive ParsedRec
  | clientHello (body : Bytes)
  | serverHello (body : Bytes)
  | handshakeOther (body : Bytes)
  | ccs (body : Bytes)
  | alertRec (body : Bytes)
  | appData (body : Bytes)
deriving DecidableEq, Repr

/-- Python exceptions of the TLS path that are not one of the handled TCP
stream exceptions: SSL3Exception from parse_record, tlslite
TLSProtocolException, IndexError, KeyError. -/
inductive PyErr
  | indexError
  | keyError
  | tlsProtoExn
  | sslExn
deriving DecidableEq, Repr

/-- TLSStream.parse_record: look the record type up in RECORD_TYPES,
raising SSL3Exception for an invalid record type, and parse the body. -/
def parseRecord (r : TLSRec) : Except PyErr ParsedRec :=
  if r.rtype = 20 then .ok (.ccs r.rdata)
  else if r.rtype = 21 then .ok (.alertRec r.rdata)
  else if r.rtype = 22 then
    match r.rdata.head? with
    | some 1 => .ok (.clientHello r.rdata)
    | some 2 => .ok (.serverHello r.rdata)
    | _ => .ok (.handshakeOther r.rdata)
  else if r.rtype = 23 then .ok (.appData r.rdata)
  else .error .sslExn

/-- The TLSInfo object built in TLSStream.state_stream.  The JA3 values are
whatever the fingerprinter returns (Option, since failures yield None). -/
structure TLSInfo where
  ja3 : Option Bytes
  ja3s : Option Bytes
  ja3_params : Option Bytes
  ja3s_params : Option Bytes
  client_hello : Option ParsedRec
  server_hello : Option ParsedRec
deriving DecidableEq, Repr

/-- Modelled from the spec: the JA3 fingerprinter lives in httpreplay.misc,
which is not under src/.  Section 4.4: JA3 concatenates the ClientHello
parameter fields and returns the MD5 hex plus the raw parameters; failures
yield None.  The MD5 digest is elided here and the fingerprint is modeled
as the raw hello body, which keeps determinism; a non-ClientHello input
makes the computation fail, yielding None. -/
def ja3OfHello : Option ParsedRec → Option (Bytes × Bytes)
  | some (.clientHello b) => some (b, b)
  | _ => none

/-- Modelled from the spec: JA3S over the ServerHello, as ja3OfHello. -/
def ja3sOfHello : Option ParsedRec → Option (Bytes × Bytes)
  | some (.serverHello b) => some (b, b)
  | _ => none

/-- TLSInfo as constructed at smegma.py lines 605-619. -/
def mkTLSInfo (ch sh : Option ParsedRec) : TLSInfo :=
  ⟨(ja3OfHello ch).map Prod.fst, (ja3sOfHello sh).map Prod.fst,
   (ja3OfHello ch).map Prod.snd, (ja3sOfHello sh).map Prod.snd, ch, sh⟩

/-- One event delivered upward through a parent.handle call:
(flow, timestamp, protocol tag, sent bytes, received bytes, tlsinfo).
The timestamp is optional because TCPStream.finish forwards self.ts,
which can be None. -/
structure Event where
  s : Four
  ts : Option Nat
  protocol : String
  sent : Bytes
  recv : Bytes
  tlsinfo : Option TLSInfo
deriving DecidableEq, Repr

/-- Log levels of the logging calls in the source. -/
inductive LogLevel
  | debug
  | info
  | warning
  | err
  | critical
deriving DecidableEq, Repr

/-- Log entries.  The retransmission log of TCPStream.state_conn carries
its level (warning when the sizes differ, debug when equal) and both
lengths; all other log calls are carried as a level and a short tag. -/
inductive LogE
  | msg (lvl : LogLevel) (tag : String)
  | retrans (lvl : LogLevel) (oldLen newLen : Nat)
deriving DecidableEq, Repr

/-- A TCP segment as TCPStream sees it: dpkt.tcp.TCP fields.  seq and ack
are Int because Python int arithmetic on them does not wrap. -/
structure Seg where
  sport : Nat
  dport : Nat
  seq : Int
  ack : Int
  flags : Nat
  data : Bytes
deriving DecidableEq, Repr

/-- The Packet bytes-subclass of smegma.py: a payload with the timestamp of
the segment that carried it. -/
structure Packet where
  data : Bytes
  ts : Nat
deriving DecidableEq, Repr

/-- The three exceptions raised by the TCPStream state machine, plus the
KeyError a malformed duplicate-detection lookup would raise. -/
inductive TcpErr
  | invalidOrder
  | unknownSeq
  | unexpectedData
  | pyKeyError
deriving DecidableEq, Repr

/-- Exception class names as logged by PcapReader.process. -/
def tcpErrName : TcpErr → String
  | .invalidOrder => "InvalidTcpPacketOrder"
  | .unknownSeq => "UnknownTcpSequenceNumber"
  | .unexpectedData => "UnexpectedTcpData"
  | .pyKeyError => "KeyError"

/-- TCPStream state tags. -/
inductive TTag
  | initSyn
  | initSynAck
  | initAck
  | conn
  | connClosed
  | connFinish
deriving DecidableEq, Repr

/-- Which protocol handler the demultiplexer attached to a stream. -/
inductive HChoice
  | h (id : Nat)
  | fallbackProto
deriving DecidableEq, Repr

/-- TCPStream per-flow state (TCPStream.init).  packets maps
(end sequence, ack) to the stored payload; origins maps
(start sequence, ack) to the packets key.  hid records which handler the
demultiplexer chose; the handler chain itself is modeled as the identity
event sink (httpreplay.shoddy.Protocol is not under src/; per spec section
4.1 the parent chain only forwards events to one sink). -/
structure TCP where
  s : Four
  packets : List ((Int × Int) × Packet)
  origins : List ((Int × Int) × (Int × Int))
  sent : List Packet
  recv : List Packet
  conn : Bool
  ts : Option Nat
  cli : Option Int
  srv : Option Int
  tag : TTag
  hid : HChoice
deriving DecidableEq, Repr

/-- A fresh TCPStream for flow s with chosen handler. -/
def mkTCP (s : Four) (hid : HChoice) : TCP :=
  ⟨s, [], [], [], [], false, none, none, none, .initSyn, hid⟩

/-- Result of one TCPStream step: new state, events delivered upward, logs. -/
structure TOut where
  st : TCP
  evs : List Event
  logs : List LogE
deriving DecidableEq, Repr

/-- Joining of stored payloads, modelling bytes-join over Packet values. -/
def joinP (l : List Packet) : Bytes :=
  l.foldl (fun a p => a ++ p.data) []

/-- Truthiness of self.ts: None and 0.0 are falsy in Python. -/
def tsFalsy : Option Nat → Bool
  | none => true
  | some t => t == 0

/-- The while loop of TCPStream.ack_packets: pop (seq, ack) chains walking
backward by payload length, prepending each popped payload, and drop the
matching origins entries.  Each iteration removes one packets entry, so
fuel = packets length + 1 never runs out before the natural exit. -/
def ackLoop : Nat → List ((Int × Int) × Packet) → List ((Int × Int) × (Int × Int)) →
    Int → Int → List Packet →
    List Packet × List ((Int × Int) × Packet) × List ((Int × Int) × (Int × Int))
  | 0, ps, os, _, _, acc => (acc, ps, os)
  | fuel + 1, ps, os, seq, ack, acc =>
    match alFind ps (seq, ack) with
    | none => (acc, ps, os)
    | some buf =>
      let ps2 := alErase ps (seq, ack)
      let seq2 := seq - buf.data.length
      let os2 := alErase os (seq2, ack)
      ackLoop fuel ps2 os2 seq2 ack (buf :: acc)

/-- TCPStream.ack_packets(seq, ack, to_server): release the acknowledged
chain in sequence order, set self.ts from the first released payload when
self.ts is falsy, and append to sent or recv by direction. -/
def ack_packets (st : TCP) (seq ack : Int) (dir : Bool) : TCP :=
  let r := ackLoop (st.packets.length + 1) st.packets st.origins seq ack []
  let pkts := r.1
  let st := { st with packets := r.2.1, origins := r.2.2 }
  let st :=
    match pkts with
    | [] => st
    | p :: _ => if tsFalsy st.ts then { st with ts := some p.ts } else st
  if dir then { st with sent := st.sent ++ pkts }
  else { st with recv := st.recv ++ pkts }

/-- Lines 304-323 of TCPStream.state_conn: wrap the payload in a Packet,
detect a retransmission via origins (start key) or packets (end key), log
it at warning level when the stored length differs and debug level when
equal without replacing the stored copy, and otherwise store the payload
under its end-sequence key. -/
def connStore (st : TCP) (ts : Nat) (seg : Seg) (evs : List Event) :
    Except TcpErr TOut :=
  let seqEnd : Int := seg.seq + seg.data.length
  let packet : Packet := ⟨seg.data, ts⟩
  if (alFind st.origins (seg.seq, seg.ack)).isSome ∨
      (alFind st.packets (seqEnd, seg.ack)).isSome then
    match alFind st.packets (seqEnd, seg.ack) with
    | some dup =>
      .ok ⟨st, evs,
        [.retrans (if dup.data.length ≠ packet.data.length then .warning else .debug)
          dup.data.length packet.data.length]⟩
    | none =>
      match alFind st.origins (seg.seq, seg.ack) with
      | some k =>
        match alFind st.packets k with
        | some dup =>
          .ok ⟨st, evs,
            [.retrans (if dup.data.length ≠ packet.data.length then .warning else .debug)
              dup.data.length packet.data.length]⟩
        | none => .error .pyKeyError
      | none => .error .pyKeyError
  else
    .ok ⟨{ st with
            origins := alInsert st.origins (seg.seq, seg.ack) (seqEnd, seg.ack),
            packets := alInsert st.packets (seqEnd, seg.ack) packet },
         evs, []⟩

/-- TCPStream.state_conn: release on ACK, close on RST, mark FIN, then on a
payload-carrying client segment flush the pending pair when recv is
non-empty, and store or dedupe the payload. -/
def stateConn (st0 : TCP) (ts : Nat) (seg : Seg) (to_server : Bool) :
    Except TcpErr TOut :=
  let st := if Nat.land seg.flags 16 ≠ 0 then
      ack_packets st0 seg.ack seg.seq (!to_server) else st0
  let st := if Nat.land seg.flags 4 ≠ 0 then
      ack_packets { st with tag := .connClosed } seg.ack (seg.seq - 1) (!to_server)
    else st
  let seqEnd : Int := seg.seq + seg.data.length
  let st := if Nat.land seg.flags 1 ≠ 0 then
      (if to_server then { st with tag := .connFinish, cli := some (seqEnd + 1) }
       else { st with tag := .connFinish, srv := some (seqEnd + 1) })
    else st
  if seg.data = [] then .ok ⟨st, [], []⟩
  else
    let flush := to_server ∧ st.recv ≠ []
    let evs := if flush then
        [⟨st.s, st.ts, "tcp", joinP st.sent, joinP st.recv, none⟩] else []
    let st := if flush then { st with sent := [], recv := [], ts := none } else st
    connStore st ts seg evs

/-- TCPStream.state_conn_closed: behave like state_conn, then force-release
everything still in flight at (seq + payload length, ack). -/
def stateConnClosed (st : TCP) (ts : Nat) (seg : Seg) (to_server : Bool) :
    Except TcpErr TOut := do
  let r ← stateConn st ts seg to_server
  let st2 := ack_packets r.st (seg.seq + seg.data.length) seg.ack to_server
  .ok ⟨st2, r.evs, r.logs⟩

/-- TCPStream.state_conn_finish: residual data delegates to state_conn; an
ACK matching a FIN is processed with ack - 1 through state_conn and nulls
that side; a FIN advances the sender side past it. -/
def stateConnFinish (st : TCP) (ts : Nat) (seg : Seg) (to_server : Bool) :
    Except TcpErr TOut :=
  if st.cli ≠ some seg.ack ∧ st.srv ≠ some seg.ack then
    stateConn st ts seg to_server
  else do
    let r ←
      if Nat.land seg.flags 16 ≠ 0 then
        if to_server then
          if st.srv ≠ some seg.ack then .error .invalidOrder
          else do
            let r ← stateConn st ts { seg with ack := seg.ack - 1 } to_server
            .ok (⟨{ r.st with srv := none }, r.evs, r.logs⟩ : TOut)
        else
          if st.cli ≠ some seg.ack then .error .invalidOrder
          else do
            let r ← stateConn st ts { seg with ack := seg.ack - 1 } to_server
            .ok (⟨{ r.st with cli := none }, r.evs, r.logs⟩ : TOut)
      else .ok (⟨st, [], []⟩ : TOut)
    let st2 :=
      if Nat.land seg.flags 1 ≠ 0 then
        (if to_server then { r.st with cli := some (seg.seq + 1) }
         else { r.st with srv := some (seg.seq + 1) })
      else r.st
    .ok ⟨st2, r.evs, r.logs⟩

/-- TCPStream.state_init_ack, clause for clause in source order. -/
def stateInitAck (st : TCP) (ts : Nat) (seg : Seg) (to_server : Bool) :
    Except TcpErr TOut :=
  if to_server ∧ seg.flags = 2 then .ok ⟨st, [], []⟩
  else if ¬to_server ∧ seg.flags = 18 then .ok ⟨st, [], []⟩
  else if ¬to_server ∧ seg.flags = 4 then .ok ⟨st, [], []⟩
  else if to_server ∧ seg.flags = 4 then .ok ⟨st, [], []⟩
  else if ¬to_server then .ok ⟨st, [], [.msg .warning "server-spamming"]⟩
  else if Nat.land seg.flags 16 ≠ 0 ∧ seg.data ≠ [] then
    stateConn { st with tag := .conn } ts seg to_server
  else if to_server ∧ Nat.land seg.flags 1 ≠ 0 then
    .ok ⟨{ st with tag := .connFinish }, [], []⟩
  else if seg.flags ≠ 16 then .error .invalidOrder
  else if st.cli ≠ some seg.seq then .error .unknownSeq
  else if st.srv ≠ some seg.ack then .error .unknownSeq
  else if seg.data ≠ [] then .error .unexpectedData
  else .ok ⟨{ st with tag := .conn }, [], []⟩

/-- TCPStream.state_init_syn_ack, clause for clause in source order. -/
def stateInitSynAck (st : TCP) (ts : Nat) (seg : Seg) (to_server : Bool) :
    Except TcpErr TOut :=
  if to_server ∧ seg.flags = 2 then .ok ⟨st, [], []⟩
  else if Nat.land seg.flags 4 ≠ 0 then .ok ⟨{ st with tag := .initSyn }, [], []⟩
  else if to_server ∧ seg.flags = 16 then
    stateInitAck { st with cli := some seg.seq, srv := some seg.ack } ts seg to_server
  else if ¬to_server ∧ seg.flags = 16 then
    .ok ⟨st, [], [.msg .warning "ack-to-syn"]⟩
  else if to_server ∧ Nat.land seg.flags 16 ≠ 0 ∧ seg.data ≠ [] then
    (stateConn { st with cli := some seg.seq, srv := some seg.ack, tag := .conn }
        ts seg to_server).map
      fun r => ⟨r.st, r.evs, .msg .warning "missed-handshake" :: r.logs⟩
  else if ¬to_server ∧ seg.flags = 24 then .ok ⟨{ st with tag := .initSyn }, [], []⟩
  else if to_server ∨ seg.flags ≠ 18 then .error .invalidOrder
  else if seg.data ≠ [] then .error .unexpectedData
  else .ok ⟨{ st with cli := some seg.ack, srv := some (seg.seq + 1), tag := .initAck },
            [], []⟩

/-- TCPStream.state_init_syn: ignore RSTs, reject a server-first packet or
client payload, then capture the timestamp and client sequence number. -/
def stateInitSyn (st : TCP) (ts : Nat) (seg : Seg) (to_server : Bool) :
    Except TcpErr TOut :=
  if Nat.land seg.flags 4 ≠ 0 then .ok ⟨st, [], []⟩
  else if ¬to_server ∧ seg.flags ≠ 2 then .error .invalidOrder
  else if ¬to_server ∧ seg.data ≠ [] then .error .unexpectedData
  else .ok ⟨{ st with ts := some ts, cli := some seg.seq, tag := .initSynAck }, [], []⟩

/-- TCPStream.process: dispatch on the state tag. -/
def tcpProcess (st : TCP) (ts : Nat) (seg : Seg) (to_server : Bool) :
    Except TcpErr TOut :=
  match st.tag with
  | .initSyn => stateInitSyn st ts seg to_server
  | .initSynAck => stateInitSynAck st ts seg to_server
  | .initAck => stateInitAck st ts seg to_server
  | .conn => stateConn st ts seg to_server
  | .connClosed => stateConnClosed st ts seg to_server
  | .connFinish => stateConnFinish st ts seg to_server

/-- Process a list of (timestamp, segment, to_server) deliveries in order,
accumulating events and logs; an exception aborts the run. -/
def tcpRunFrom (st : TCP) : List (Nat × Seg × Bool) → Except TcpErr TOut
  | [] => .ok ⟨st, [], []⟩
  | (ts, seg, dir) :: rest => do
    let r ← tcpProcess st ts seg dir
    let r2 ← tcpRunFrom r.st rest
    .ok ⟨r2.st, r.evs ++ r2.evs, r.logs ++ r2.logs⟩

/-- TCPStream.finish: emit one final pair when either buffer is non-empty
and warn when packets are still pending. -/
def tcpFinish (st : TCP) : TOut :=
  let evs := if st.sent ≠ [] ∨ st.recv ≠ [] then
      [⟨st.s, st.ts, "tcp", joinP st.sent, joinP st.recv, none⟩] else []
  let logs := if st.packets ≠ [] then [.msg .warning "packets-still-pending"] else []
  ⟨st, evs, logs⟩

/-- Process all segments of a flow and then call finish. -/
def tcpRunAll (st : TCP) (l : List (Nat × Seg × Bool)) : Except TcpErr TOut := do
  let r ← tcpRunFrom st l
  let f := tcpFinish r.st
  .ok ⟨f.st, r.evs ++ f.evs, r.logs ++ f.logs⟩

/-- Events of a TCP run; an exception yields the empty list. -/
def toutEvs : Except TcpErr TOut → List Event
  | .ok t => t.evs
  | .error _ => []

/-- Logs of a TCP run; an exception yields the empty list. -/
def toutLogs : Except TcpErr TOut → List LogE
  | .ok t => t.logs
  | .error _ => []

/-- Final state of a TCP run, with a default for the exception case. -/
def toutSt (d : TCP) : Except TcpErr TOut → TCP
  | .ok t => t.st
  | .error _ => d

/-- Handler registration keys: a port number or the "generic" entry. -/
inductive HKey
  | port (p : Nat)
  | generic
deriving DecidableEq, Repr

/-- TCPPacketStreamer.handler(sn): look the source port up first, then the
destination port, then "generic"; otherwise warn and fall back to the
abstract Protocol class. -/
def handlerFor (handlers : List (HKey × Nat)) (sn : Four) : HChoice × List LogE :=
  match sn with
  | (_, sport, _, dport) =>
    match alFind handlers (.port sport) with
    | some v => (.h v, [])
    | none =>
      match alFind handlers (.port dport) with
      | some v => (.h v, [])
      | none =>
        match alFind handlers .generic with
        | some v => (.h v, [])
        | none => (.fallbackProto, [.msg .warning "unhandled-protocol"])

/-- TCPPacketStreamer state: live streams keyed by forward flow key, and
the registration map.  Handler instances are modeled as the identity event
sink (the parent chain of section 4.1), recorded by their HChoice. -/
structure Streamer where
  streams : List (Four × TCP)
  handlers : List (HKey × Nat)
deriving DecidableEq, Repr

/-- TCPPacketStreamer.stream(ip, tcp, reverse): forward or reverse key. -/
def streamKey (ipsrc ipdst : String) (seg : Seg) (rev : Bool) : Four :=
  if rev then (ipdst, seg.dport, ipsrc, seg.sport)
  else (ipsrc, seg.sport, ipdst, seg.dport)

/-- TCPPacketStreamer.process: create a TCPStream on an exact-SYN segment
for an unknown forward key, then route by forward or reverse key with the
direction bit, or warn and drop. -/
def streamerProcess (sm : Streamer) (ts : Nat) (ipsrc ipdst : String) (seg : Seg) :
    Except TcpErr (Streamer × List Event × List LogE) :=
  let sn := streamKey ipsrc ipdst seg false
  let sr := streamKey ipsrc ipdst seg true
  let created :=
    if (alFind sm.streams sn).isNone ∧ seg.flags = 2 then
      let hc := handlerFor sm.handlers sn
      ({ sm with streams := alInsert sm.streams sn (mkTCP sn hc.1) }, hc.2)
    else (sm, [])
  let sm2 := created.1
  match alFind sm2.streams sn with
  | some st => do
    let r ← tcpProcess st ts seg true
    .ok ({ sm2 with streams := alUpdate sm2.streams sn r.st }, r.evs, created.2 ++ r.logs)
  | none =>
    match alFind sm2.streams sr with
    | some st => do
      let r ← tcpProcess st ts seg false
      .ok ({ sm2 with streams := alUpdate sm2.streams sr r.st }, r.evs,
           created.2 ++ r.logs)
    | none => .ok (sm2, [], created.2 ++ [.msg .warning "unknown-stream"])

/-- TCPPacketStreamer.finish: finish every stream, in stored order. -/
def streamerFinish (sm : Streamer) : List Event × List LogE :=
  sm.streams.foldl
    (fun acc kv =>
      let f := tcpFinish kv.2
      (acc.1 ++ f.evs, acc.2 ++ f.logs))
    ([], [])

/-- Outcome of one tlslite record-layer decryption call, the external
collaborator of spec section 1: plaintext, TLSBadRecordMAC,
TLSDecryptionFailed, or another TLSProtocolException. -/
inductive DecOutcome
  | ok (plain : Bytes)
  | badMac
  | decFailed
  | protoExn
deriving DecidableEq, Repr

/-- TLSStream state tags. -/
inductive TLSTag
  | tInit
  | tClient
  | tServer
  | tDecrypt
  | tStream
  | tDone
deriving DecidableEq, Repr

/-- Keys of the caller-supplied secrets mapping (spec section 6). -/
inductive SecKey
  | sid (b : Bytes)
  | crand (b : Bytes)
  | rpair (c sv : Bytes)
deriving DecidableEq, Repr

/-- TLSStream per-flow state (TLSStream.init): the secrets map, the
external decryption function (side, record type, ciphertext), the external
cipher-suite support predicate of _TLSStream.init_cipher, the state tag,
the parsed record queues, the raw tail buffers, and the retained hellos. -/
structure TLSState where
  secrets : List (SecKey × Bytes)
  decrypt : Bool → Nat → Bytes → DecOutcome
  supported : Nat → Bool
  tag : TLSTag
  sentQ : List TLSRec
  recvQ : List TLSRec
  raw_sent : Bytes
  raw_recv : Bytes
  client_hello : Option ParsedRec
  server_hello : Option ParsedRec

/-- A fresh TLSStream. -/
def mkTLS (secrets : List (SecKey × Bytes)) (decrypt : Bool → Nat → Bytes → DecOutcome)
    (supported : Nat → Bool) : TLSState :=
  ⟨secrets, decrypt, supported, .tInit, [], [], [], [], none, none⟩

/-- ClientHello version field: bytes 4 and 5 of the handshake body
(after message type and 3-byte length), as dpkt exposes it. -/
def chVersion (body : Bytes) : Nat :=
  body.getD 4 0 * 256 + body.getD 5 0

/-- Hello random: the 32 bytes after the version. -/
def helloRandom (body : Bytes) : Bytes :=
  (body.drop 6).take 32

/-- ServerHello session id: length-prefixed at byte 38. -/
def shSessionId (body : Bytes) : Bytes :=
  (body.drop 39).take (body.getD 38 0)

/-- ServerHello cipher suite: the two bytes after the session id. -/
def shCipher (body : Bytes) : Nat :=
  let n := body.getD 38 0
  body.getD (39 + n) 0 * 256 + body.getD (40 + n) 0

/-- The tls_versions table of _TLSStream: SSL3_V, TLS1_V, TLS11_V, TLS12_V.
A version outside the table makes init_cipher raise KeyError. -/
def tlsVersionKnown (v : Nat) : Bool :=
  v = 768 ∨ v = 769 ∨ v = 770 ∨ v = 771

/-- TLSStream.state_init: wait for one record on each side; pop and parse
both; skip the stream (state done) when either is not the expected hello;
look the master secret up by session id, then client random, then the
random pair; skip when absent; initialize the cipher (KeyError on an
unknown client TLS version, state done but advance on an unsupported
suite); otherwise advance to the client state. -/
def stateInit (st : TLSState) : Except PyErr (TLSState × Bool × List LogE) :=
  match st.sentQ, st.recvQ with
  | [], _ => .ok (st, false, [])
  | _, [] => .ok (st, false, [])
  | c :: sTail, s :: rTail => do
    let st := { st with sentQ := sTail, recvQ := rTail }
    let ch ← parseRecord c
    let sh ← parseRecord s
    let st := { st with client_hello := some ch, server_hello := some sh }
    match ch with
    | .clientHello cb =>
      match sh with
      | .serverHello sb =>
        let clientRandom := helloRandom cb
        let serverRandom := helloRandom sb
        let secret :=
          match alFind st.secrets (.sid (shSessionId sb)) with
          | some m => some m
          | none =>
            match alFind st.secrets (.crand clientRandom) with
            | some m => some m
            | none => alFind st.secrets (.rpair clientRandom serverRandom)
        match secret with
        | none => .ok ({ st with tag := .tDone }, false, [.msg .info "no-secret"])
        | some _ =>
          if tlsVersionKnown (chVersion cb) = false then .error .keyError
          else if st.supported (shCipher sb) then
            .ok ({ st with tag := .tClient }, true, [])
          else
            .ok ({ st with tag := .tDone }, true,
                 [.msg .critical "unsupported-cipher-suite"])
      | _ => .ok ({ st with tag := .tDone }, false, [.msg .info "not-tls-server"])
    | _ => .ok ({ st with tag := .tDone }, false, [.msg .info "not-tls-client"])

/-- The pop-until-ChangeCipherSpec loop of state_client and state_server:
returns the queue remainder and whether a type-20 record was consumed. -/
def popUntilCCS : List TLSRec → List TLSRec × Bool
  | [] => ([], false)
  | r :: rest => if r.rtype = 20 then (rest, true) else popUntilCCS rest

/-- TLSStream.state_client: drain sent records until a CCS, then advance. -/
def stateClient (st : TLSState) : TLSState × Bool :=
  let r := popUntilCCS st.sentQ
  if r.2 then ({ st with sentQ := r.1, tag := .tServer }, true)
  else ({ st with sentQ := r.1 }, false)

/-- TLSStream.state_server: drain recv records until a CCS, then advance. -/
def stateServer (st : TLSState) : TLSState × Bool :=
  let r := popUntilCCS st.recvQ
  if r.2 then ({ st with recvQ := r.1, tag := .tDecrypt }, true)
  else ({ st with recvQ := r.1 }, false)

/-- _TLSStream.decrypt_client: decrypt with the client state, turning
TLSBadRecordMAC and TLSDecryptionFailed into empty plaintext with a
warning; any other TLSProtocolException propagates. -/
def decryptClient (st : TLSState) (rtype : Nat) (buf : Bytes) :
    Except PyErr (Bytes × List LogE) :=
  match st.decrypt true rtype buf with
  | .ok p => .ok (p, [])
  | .badMac => .ok ([], [.msg .warning "bad-mac-client"])
  | .decFailed => .ok ([], [.msg .warning "bad-block-length-client"])
  | .protoExn => .error .tlsProtoExn

/-- _TLSStream.decrypt_server, as decryptClient on the server state. -/
def decryptServer (st : TLSState) (rtype : Nat) (buf : Bytes) :
    Except PyErr (Bytes × List LogE) :=
  match st.decrypt false rtype buf with
  | .ok p => .ok (p, [])
  | .badMac => .ok ([], [.msg .warning "bad-mac-server"])
  | .decFailed => .ok ([], [.msg .warning "bad-block-length-server"])
  | .protoExn => .error .tlsProtoExn

/-- TLSStream.state_decrypt: pop and decrypt the first record on each side
(server first), discarding the plaintext, then advance to stream. -/
def stateDecrypt (st : TLSState) : Except PyErr (TLSState × Bool × List LogE) :=
  match st.sentQ, st.recvQ with
  | [], _ => .ok (st, false, [])
  | _, [] => .ok (st, false, [])
  | c :: sTail, s :: rTail => do
    let r1 ← decryptServer st s.rtype s.rdata
    let r2 ← decryptClient st c.rtype c.rdata
    .ok ({ st with sentQ := sTail, recvQ := rTail, tag := .tStream }, true,
         r1.2 ++ r2.2)

/-- The sent-records loop of state_stream: decrypt each with the client
state; a non-empty plaintext is kept; protocol exceptions propagate
because this loop has no try/except around decrypt_client. -/
def streamSentLoop (st : TLSState) : List TLSRec → Except PyErr (List Bytes × List LogE)
  | [] => .ok ([], [])
  | r :: rest => do
    let d ← decryptClient st r.rtype r.rdata
    let tail ← streamSentLoop st rest
    .ok ((if d.1 ≠ [] then d.1 :: tail.1 else tail.1), d.2 ++ tail.2)

/-- The recv-records loop of state_stream: decrypt each with the server
state inside a try/except TLSProtocolException, which logs and skips. -/
def streamRecvLoop (st : TLSState) : List TLSRec → List Bytes × List LogE
  | [] => ([], [])
  | r :: rest =>
    let tail := streamRecvLoop st rest
    match st.decrypt false r.rtype r.rdata with
    | .ok p => ((if p ≠ [] then p :: tail.1 else tail.1), tail.2)
    | .badMac => (tail.1, .msg .warning "bad-mac-server" :: tail.2)
    | .decFailed => (tail.1, .msg .warning "bad-block-length-server" :: tail.2)
    | .protoExn => (tail.1, .msg .info "decrypt-error-reordered" :: tail.2)

/-- Joining of plaintext chunks. -/
def joinB (l : List Bytes) : Bytes :=
  l.foldl (fun a b => a ++ b) []

/-- TLSStream.state_stream: with records queued on both sides, drain and
decrypt both queues, then subscript the first sent and recv plaintexts
(IndexError when a list is empty), build the TLSInfo and emit one tls
event upward. -/
def stateStream (st : TLSState) (s : Four) (ts : Nat) :
    Except PyErr (TLSState × Bool × List Event × List LogE) :=
  if st.sentQ ≠ [] ∧ st.recvQ ≠ [] then do
    let sentR ← streamSentLoop st st.sentQ
    let st := { st with sentQ := [] }
    let recvR := streamRecvLoop st st.recvQ
    let st := { st with recvQ := [] }
    if sentR.1 = [] then .error .indexError
    else if recvR.1 = [] then .error .indexError
    else
      let info := mkTLSInfo st.client_hello st.server_hello
      .ok (st, true,
           [⟨s, some ts, "tls", joinB sentR.1, joinB recvR.1, some info⟩],
           sentR.2 ++ recvR.2)
  else .ok (st, false, [], [])

/-- TLSStream.state_done: silently drain both queues. -/
def stateDone (st : TLSState) : TLSState :=
  { st with sentQ := [], recvQ := [] }

/-- One step of the TLSStream state machine dispatch table. -/
def tlsStep (st : TLSState) (s : Four) (ts : Nat) :
    Except PyErr (TLSState × Bool × List Event × List LogE) :=
  match st.tag with
  | .tInit => (stateInit st).map fun r => (r.1, r.2.1, [], r.2.2)
  | .tClient => let r := stateClient st; .ok (r.1, r.2, [], [])
  | .tServer => let r := stateServer st; .ok (r.1, r.2, [], [])
  | .tDecrypt => (stateDecrypt st).map fun r => (r.1, r.2.1, [], r.2.2)
  | .tStream => stateStream st s ts
  | .tDone => .ok (stateDone st, false, [], [])

/-- The while loop at the end of TLSStream.handle: keep stepping while the
state function returns a truthy value.  Every advancing step consumes at
least one queued record, so total queue length + 1 fuel suffices. -/
def tlsLoop : Nat → TLSState → Four → Nat →
    Except PyErr (TLSState × List Event × List LogE)
  | 0, st, _, _ => .ok (st, [], [])
  | fuel + 1, st, s, ts => do
    let r ← tlsStep st s ts
    if r.2.1 then do
      let r2 ← tlsLoop fuel r.1 s ts
      .ok (r2.1, r.2.2.1 ++ r2.2.1, r.2.2.2 ++ r2.2.2)
    else .ok (r.1, r.2.2.1, r.2.2.2)

/-- TLSStream.handle: forward non-tcp pairs untouched; append the sent
bytes to raw_sent and frame the NEW sent chunk only (the source calls
tls_multi_factory on sent, not on raw_sent), trim raw_sent by the consumed
length and queue the records; same for recv; on SSL3Exception forward the
pair as-is; finally run the state machine loop. -/
def tlsHandle (st : TLSState) (s : Four) (ts : Nat) (protocol : String)
    (sent recv : Bytes) (tlsinfo : Option TLSInfo) :
    Except PyErr (TLSState × List Event × List LogE) :=
  if protocol ≠ "tcp" then .ok (st, [⟨s, some ts, protocol, sent, recv, tlsinfo⟩], [])
  else
    let st := { st with raw_sent := st.raw_sent ++ sent }
    match tlsMultiFactory sent with
    | .error _ => .ok (st, [⟨s, some ts, protocol, sent, recv, none⟩], [])
    | .ok fr =>
      let st := { st with raw_sent := st.raw_sent.drop fr.2,
                          sentQ := st.sentQ ++ fr.1 }
      let st := { st with raw_recv := st.raw_recv ++ recv }
      match tlsMultiFactory recv with
      | .error _ => .ok (st, [⟨s, some ts, protocol, sent, recv, none⟩], [])
      | .ok fr2 =>
        let st := { st with raw_recv := st.raw_recv.drop fr2.2,
                            recvQ := st.recvQ ++ fr2.1 }
        tlsLoop (st.sentQ.length + st.recvQ.length + 1) st s ts

/-- Final TLS state of a handle call, with a default for the raised case. -/
def tlsResSt (d : TLSState) : Except PyErr (TLSState × List Event × List LogE) →
    TLSState
  | .ok r => r.1
  | .error _ => d

/-- Events of a handle call; a raised exception yields the empty list. -/
def tlsResEvs : Except PyErr (TLSState × List Event × List LogE) → List Event
  | .ok r => r.2.1
  | .error _ => []

/-- The value appended to PcapReader.values by PcapReader.handle: a
5-tuple.  The tlsinfo argument does not appear in it. -/
abbrev YVal := Four × Option Nat × String × Bytes × Bytes

/-- Packets as PcapReader.process classifies them before the TCP dispatch.
Ethernet and IP decapsulation are external collaborators (spec section 1);
a packet either stays raw bytes under a datalink the reader does not
handle, or resolves to a TCP segment with its endpoint addresses. -/
inductive RPkt
  | unknownDL (raw : Bytes)
  | tcp (ipsrc ipdst : String) (seg : Seg)
deriving DecidableEq, Repr

/-- PcapReader state: the underlying pcap iterator (None when the header
was rejected), the raise_exceptions toggle, the indexed exceptions map,
the TCP handler and the pending values list. -/
structure Reader where
  pcap : Option (List (Nat × RPkt))
  raiseExc : Bool
  excs : List (Nat × String)
  streamerH : Option Streamer
  values : List YVal
deriving DecidableEq, Repr

/-- PcapReader.handle: append the event as a 5-tuple, dropping tlsinfo. -/
def readerHandle (rd : Reader) (s : Four) (ts : Option Nat) (protocol : String)
    (sent recv : Bytes) (tlsinfo : Option TLSInfo) : Reader :=
  { rd with values := rd.values ++ [(s, ts, protocol, sent, recv)] }

/-- Deliver a list of events through readerHandle. -/
def readerDeliver (rd : Reader) (evs : List Event) : Reader :=
  evs.foldl (fun r e => readerHandle r e.s e.ts e.protocol e.sent e.recv e.tlsinfo) rd

/-- One iteration of the PcapReader.process loop: an unknown datalink is
raised when raise_exceptions is set and recorded in the exceptions map
keyed by timestamp otherwise; a TCP segment is processed by the handler
inside a try/except whose clauses catch exactly InvalidTcpPacketOrder,
UnknownTcpSequenceNumber and UnexpectedTcpData and only log them; any
other exception, such as the KeyError a malformed duplicate lookup in
state_conn would raise, is not caught and escapes process. -/
def readerStep (rd : Reader) (ts : Nat) (p : RPkt) :
    Except String (Reader × List LogE) :=
  match p with
  | .unknownDL _ =>
    if rd.raiseExc then .error "UnknownDatalink"
    else .ok ({ rd with excs := rd.excs ++ [(ts, "UnknownDatalink")] }, [])
  | .tcp a b seg =>
    match rd.streamerH with
    | none => .ok (rd, [])
    | some sm =>
      match streamerProcess sm ts a b seg with
      | .ok r => .ok ({ (readerDeliver rd r.2.1) with streamerH := some r.1 }, r.2.2)
      | .error .invalidOrder => .ok (rd, [.msg .err (tcpErrName .invalidOrder)])
      | .error .unknownSeq => .ok (rd, [.msg .err (tcpErrName .unknownSeq)])
      | .error .unexpectedData => .ok (rd, [.msg .err (tcpErrName .unexpectedData)])
      | .error .pyKeyError => .error "KeyError"

/-- The packet loop of PcapReader.process. -/
def readerLoop : List (Nat × RPkt) → Reader → Except String (Reader × List LogE)
  | [], rd => .ok (rd, [])
  | (ts, p) :: rest, rd => do
    let r ← readerStep rd ts p
    let r2 ← readerLoop rest r.1
    .ok (r2.1, r.2 ++ r2.2)

/-- PcapReader.process: return immediately when the pcap was rejected;
otherwise run the packet loop and then finish the TCP handler, delivering
its final events.  The generator yields values in append order, so the
yielded events of a run are the final values list. -/
def readerRun (rd : Reader) : Except String (Reader × List LogE) :=
  match rd.pcap with
  | none => .ok (rd, [])
  | some pkts => do
    let r ← readerLoop pkts rd
    match r.1.streamerH with
    | none => .ok (r.1, r.2)
    | some sm =>
      let f := streamerFinish sm
      .ok (readerDeliver r.1 f.1, r.2 ++ f.2)

/-- PcapReader.__init__ given the outcome of dpkt.pcap.Reader on the input
file: a ValueError is caught, logged as critical for the invalid tcpdump
header message, and leaves self.pcap as None. -/
def pcapReaderInit (openResult : Except String (List (Nat × RPkt)))
    (sm : Option Streamer) (raiseExc : Bool) : Reader × List LogE :=
  match openResult with
  | .ok l => (⟨some l, raiseExc, [], sm, []⟩, [])
  | .error e =>
    (⟨none, raiseExc, [], sm, []⟩,
     if e = "invalid tcpdump header" then [.msg .critical "pcapng-unsupported"] else [])

/-- Whether a reader run returned without raising. -/
def rrIsOk : Except String (Reader × List LogE) → Bool
  | .ok _ => true
  | .error _ => false

/-- Exceptions map after a reader run; a raised run yields the empty map. -/
def rrExcs : Except String (Reader × List LogE) → List (Nat × String)
  | .ok r => r.1.excs
  | .error _ => []

/-- Values yielded by a reader run; a raised run yields the empty list. -/
def rrValues : Except String (Reader × List LogE) → List YVal
  | .ok r => r.1.values
  | .error _ => []

/-- Logs of a reader run; a raised run yields the empty list. -/
def rrLogs : Except String (Reader × List LogE) → List LogE
  | .ok r => r.2
  | .error _ => []

/-- Whether a TCP run returned without raising. -/
def toutOk : Except TcpErr TOut → Bool
  | .ok _ => true
  | .error _ => false

/-- The request bytes of the clean HTTP GET scenario (spec section 8,
scenario 1). -/
def REQ : Bytes := "GET / HTTP/1.1\r\nHost: x\r\n\r\n".toList.map Char.toNat

/-- The response bytes of the clean HTTP GET scenario. -/
def RESP : Bytes := "HTTP/1.1 200 OK\r\n\r\nhi".toList.map Char.toNat

/-- A fixed flow key used by the concrete scenarios. -/
def c2flow : Four := ("1.1.1.1", 1024, "2.2.2.2", 80)

/-- Segment builder for the concrete flows (client port 1024, server 80). -/
def mseg (seq ack : Int) (flags : Nat) (data : Bytes) : Seg :=
  ⟨1024, 80, seq, ack, flags, data⟩

/-- The clean HTTP GET flow: SYN, SYN|ACK, ACK, PSH|ACK request, ACK,
PSH|ACK response, ACK, FIN|ACK, ACK, FIN|ACK, ACK, at timestamps 1..11.
Client ISN 100, server ISN 200; the request spans [101, 128), the
response [201, 222). -/
def c2segs : List (Nat × Seg × Bool) := [
  (1, mseg 100 0 2 [], true),
  (2, mseg 200 101 18 [], false),
  (3, mseg 101 201 16 [], true),
  (4, mseg 101 201 24 REQ, true),
  (5, mseg 201 128 16 [], false),
  (6, mseg 201 128 24 RESP, false),
  (7, mseg 128 222 16 [], true),
  (8, mseg 128 222 17 [], true),
  (9, mseg 222 129 16 [], false),
  (10, mseg 222 129 17 [], false),
  (11, mseg 129 223 16 [], true)]

/-- The clean GET flow with the request segment duplicated immediately
after its original (spec scenario 2). -/
def c2dupSegs : List (Nat × Seg × Bool) :=
  c2segs.take 4 ++ [(4, mseg 101 201 24 REQ, true)] ++ c2segs.drop 4

/-- The clean GET flow with a one-byte-longer duplicate of the request
segment right after its original (spec scenario 3). -/
def c2dup3Segs : List (Nat × Seg × Bool) :=
  c2segs.take 4 ++ [(4, mseg 101 201 24 (REQ ++ [33]), true)] ++ c2segs.drop 4

/-- Prefix of the clean GET flow up to the acknowledged request. -/
def c5base : List (Nat × Seg × Bool) := [
  (1, mseg 100 0 2 [], true),
  (2, mseg 200 101 18 [], false),
  (3, mseg 101 201 16 [], true),
  (4, mseg 101 201 24 REQ, true),
  (5, mseg 201 128 16 [], false)]

/-- c5base with the subset consisting of the request segment and the
server acknowledgement duplicated, the duplicates arriving after the
original was acknowledged and released. -/
def c5dup : List (Nat × Seg × Bool) :=
  c5base ++ [(6, mseg 101 201 24 REQ, true), (7, mseg 201 128 16 [], false)]

/-- A Conn-state flow awaiting a duplicate of its stored request segment:
packets holds the request under end key (128, 201) and origins maps its
start key, exactly the state after segment 4 of the clean GET flow. -/
def c5wSt : TCP :=
  ⟨c2flow, [((128, 201), ⟨REQ, 4⟩)], [((101, 201), (128, 201))], [], [], false,
   some 1, some 101, some 201, .conn, .h 0⟩

/-- A flow already in the Conn state, client sequence at 1000, server
sequence at 5000, with nothing stored yet. -/
def c9conn : TCP :=
  ⟨c2flow, [], [], [], [], false, none, some 1000, some 5000, .conn, .h 0⟩

/-- The out-of-order scenario of spec section 8 scenario 5: payloads at
1000, 1200, 1100 in that arrival order, then one cumulative ACK of 1300
from the server. -/
def c9segsOf (A B C : Bytes) : List (Nat × Seg × Bool) := [
  (1, mseg 1000 5000 24 A, true),
  (2, mseg 1200 5000 24 B, true),
  (3, mseg 1100 5000 24 C, true),
  (4, ⟨80, 1024, 5000, 1300, 16, []⟩, false)]

/-- Concrete length-100 payloads instantiating the out-of-order scenario. -/
def pA : Bytes := List.replicate 100 65

/-- Second concrete payload. -/
def pB : Bytes := List.replicate 100 66

/-- Third concrete payload. -/
def pC : Bytes := List.replicate 100 67

/-- Handler registrations for both the destination port 80 and the source
port 1234 of c6sn. -/
def c6handlers : List (HKey × Nat) := [(.port 80, 1), (.port 1234, 2)]

/-- A flow whose source port is 1234 and destination port is 80. -/
def c6sn : Four := ("10.0.0.1", 1234, "10.0.0.2", 80)

/-- The SYN segment opening c6sn. -/
def c6syn : Seg := ⟨1234, 80, 100, 0, 2, []⟩

/-- An external decryptor that always succeeds with the ciphertext as
plaintext, for scenarios that do not exercise decryption failures. -/
def okdec : Bool → Nat → Bytes → DecOutcome := fun _ _ d => .ok d

/-- An external decryptor under which every client-direction record fails
its MAC check while server-direction records decrypt fine. -/
def c1dec : Bool → Nat → Bytes → DecOutcome :=
  fun side _ d => if side then .badMac else .ok d

/-- A TLS flow in the Stream state whose client-direction records all fail
to decrypt. -/
def c1st : TLSState := ⟨[], c1dec, fun _ => true, .tStream, [], [], [], [], none, none⟩

/-- A fresh TLS flow for the spanning-record delivery scenario. -/
def c4st0 : TLSState := mkTLS [] okdec (fun _ => true)

/-- First delivery: the 4 leading bytes of a 10-byte TLS record
(type 23, version 3.1, length 5). -/
def c4d1 : Bytes := [23, 3, 1, 0]

/-- Second delivery: the remaining 6 bytes of that record. -/
def c4d2 : Bytes := [5, 3, 1, 0, 0, 9]

/-- TLS state after the first partial delivery. -/
def c4r1 : TLSState := tlsResSt c4st0 (tlsHandle c4st0 c2flow 1 "tcp" c4d1 [] none)

/-- TLS state after the second delivery completing the record. -/
def c4r2 : TLSState := tlsResSt c4st0 (tlsHandle c4r1 c2flow 2 "tcp" c4d2 [] none)

/-- A fresh TLS flow for the framing-failure scenario. -/
def c7st0 : TLSState := mkTLS [] okdec (fun _ => true)

/-- A sent chunk whose version bytes are invalid, so framing raises
SSL3Exception. -/
def c7bad : Bytes := [99, 0, 0, 0, 0]

/-- A well-formed complete TLS record delivered after the failure. -/
def c7good : Bytes := [23, 3, 1, 0, 2, 7, 7]

/-- Result of delivering the unframeable pair. -/
def c7r1 : Except PyErr (TLSState × List Event × List LogE) :=
  tlsHandle c7st0 c2flow 1 "tcp" c7bad [] none

/-- TLS state after the failed framing. -/
def c7st1 : TLSState := tlsResSt c7st0 c7r1

/-- Result of delivering a well-formed pair after the failure. -/
def c7r2 : Except PyErr (TLSState × List Event × List LogE) :=
  tlsHandle c7st1 c2flow 2 "tcp" c7good [] none

/-- A TLS flow in the Stream state whose decryptions succeed, used to
produce a tls event carrying a TLSInfo. -/
def c8tlsSt : TLSState := ⟨[], okdec, fun _ => true, .tStream, [], [], [], [], none, none⟩

/-- A Stream-state activation emitting one tls event with tlsinfo. -/
def c8run : Except PyErr (TLSState × List Event × List LogE) :=
  tlsHandle c8tlsSt c2flow 5 "tcp" [23, 3, 1, 0, 2, 9, 9] [23, 3, 1, 0, 2, 8, 8] none

/-- An empty reader used as the sink for the C8 events. -/
def c8rd : Reader := ⟨none, true, [], none, []⟩

/-- The SYN opening the flow of the reader exception scenario. -/
def c3syn : Seg := ⟨1024, 80, 100, 0, 2, []⟩

/-- A bare FIN from the server while the flow is in init_syn_ack, which
makes state_init_syn_ack raise InvalidTcpPacketOrder. -/
def c3fin : Seg := ⟨80, 1024, 200, 101, 1, []⟩

/-- A streamer with only a generic handler registered. -/
def c3sm : Streamer := ⟨[], [(.generic, 7)]⟩

/-- Reader over the SYN-then-invalid-FIN capture with raise_exceptions
enabled. -/
def c3rdTrue : Reader :=
  ⟨some [(1, .tcp "c" "s" c3syn), (2, .tcp "s" "c" c3fin)], true, [], some c3sm, []⟩

/-- The same capture with raise_exceptions disabled. -/
def c3rdFalse : Reader :=
  ⟨some [(1, .tcp "c" "s" c3syn), (2, .tcp "s" "c" c3fin)], false, [], some c3sm, []⟩

/-- A streamer holding the flow of c3fin in the init_syn_ack state, as it
stands after the SYN of c3syn was processed. -/
def c3wSm : Streamer :=
  ⟨[(("c", 1024, "s", 80),
     { mkTCP ("c", 1024, "s", 80) (.h 7) with
         tag := .initSynAck, ts := some 1, cli := some 100 })],
   [(.generic, 7)]⟩

/-- A reader wired to c3wSm with raise_exceptions enabled. -/
def c3wRd : Reader := ⟨some [], true, [], some c3wSm, []⟩

/-- C1: the claim says a record that fails to decrypt contributes empty
plaintext and no exception escapes TLSStream.handle, in particular in the
Stream state when every record of one direction fails.  The code violates
this: with one client record failing its MAC check (empty plaintext, so
the sent list stays empty) and one server record decrypting fine,
state_stream subscripts sent at index 0 and the IndexError escapes
handle. -/
theorem c1_stream_decrypt_failure_raises :
    tlsHandle c1st c2flow 9 "tcp" [23, 3, 1, 0, 2, 9, 9] [23, 3, 1, 0, 2, 8, 8] none =
      .error .indexError := rfl

/-- C2 counterexample: on the clean GET flow the single emitted event
carries timestamp 1, the timestamp of the SYN captured by state_init_syn,
not timestamp 4 of the request segment as the claim states. -/
theorem c2_pair_ts_counterexample :
    toutEvs (tcpRunAll (mkTCP c2flow (.h 0)) c2segs) =
      [⟨c2flow, some 1, "tcp", REQ, RESP, none⟩] ∧
    toutEvs (tcpRunAll (mkTCP c2flow (.h 0)) c2segs) ≠
      [⟨c2flow, some 4, "tcp", REQ, RESP, none⟩] := by decide

/-- C2 amended: processing the clean GET flow and finishing delivers
exactly one event (flow, timestamp of the SYN segment, tcp, request
bytes, response bytes) without raising; self.ts is set at the initial SYN
and ack_packets only fills it when it is unset, so the first pair carries
the handshake timestamp. -/
theorem c2_clean_get_amended :
    toutOk (tcpRunAll (mkTCP c2flow (.h 0)) c2segs) = true ∧
    toutEvs (tcpRunAll (mkTCP c2flow (.h 0)) c2segs) =
      [⟨c2flow, some 1, "tcp", REQ, RESP, none⟩] ∧
    toutLogs (tcpRunAll (mkTCP c2flow (.h 0)) c2segs) = [] := by decide

/-- C3 counterexample: a capture whose second segment raises
InvalidTcpPacketOrder.  With raise_exceptions enabled the run still
returns normally (the claim says the exception surfaces), and with it
disabled the indexed exceptions map stays empty (the claim says the
exception is recorded there); the exception is only logged at error
level. -/
theorem c3_exceptions_not_surfaced_counterexample :
    rrIsOk (readerRun c3rdTrue) = true ∧
    rrExcs (readerRun c3rdTrue) = [] ∧
    rrExcs (readerRun c3rdFalse) = [] ∧
    rrLogs (readerRun c3rdTrue) = [.msg .err "InvalidTcpPacketOrder"] := by decide

/-- C3 amended: whenever segment processing raises one of the three named
exceptions InvalidTcpPacketOrder, UnknownTcpSequenceNumber or
UnexpectedTcpData (the exact except clauses of reader.py lines 131-145),
PcapReader.process catches it and only logs it at error level, leaving
the reader state (including the exceptions map) untouched, whatever the
value of raise_exceptions; the toggle governs only the Unknown-datalink
style errors, which raise when it is set and are recorded keyed by
timestamp when it is not. -/
theorem c3_tcp_exceptions_always_logged (sm : Streamer) (rd : Reader) (ts : Nat)
    (a b : String) (seg : Seg) (e : TcpErr) (raw : Bytes)
    (hsm : rd.streamerH = some sm)
    (h : streamerProcess sm ts a b seg = .error e)
    (he : e = .invalidOrder ∨ e = .unknownSeq ∨ e = .unexpectedData) :
    readerStep rd ts (.tcp a b seg) = .ok (rd, [.msg .err (tcpErrName e)]) ∧
    (rd.raiseExc = true → readerStep rd ts (.unknownDL raw) = .error "UnknownDatalink") ∧
    (rd.raiseExc = false → readerStep rd ts (.unknownDL raw) =
      .ok ({ rd with excs := rd.excs ++ [(ts, "UnknownDatalink")] }, [])) := by
  refine ⟨?_, ?_, ?_⟩
  · rcases he with he | he | he <;> subst he <;> simp [readerStep, hsm, h]
  · intro hre; simp [readerStep, hre]
  · intro hre; simp [readerStep, hre]

/-- C3 witness: the amended theorem applied to a concrete flow in the
init_syn_ack state receiving a bare server FIN. -/
theorem c3_witness :
    readerStep c3wRd 2 (.tcp "s" "c" c3fin) =
      .ok (c3wRd, [.msg .err "InvalidTcpPacketOrder"]) :=
  (c3_tcp_exceptions_always_logged c3wSm c3wRd 2 "s" "c" c3fin .invalidOrder []
    rfl (by decide) (Or.inl rfl)).1

/-- C4: the claim states the raw_sent tail invariant and that a record
spanning two deliveries is framed once complete.  The code frames only
the newly delivered chunk (tls_multi_factory(sent), not raw_sent): after
delivering the first 4 and the last 6 bytes of one 10-byte record, the
true framing of the concatenation yields that record with an empty tail,
but the code leaves 5 bytes of misaligned tail in raw_sent and queues a
phantom record read out of the middle of the stream, never the spanning
record. -/
theorem c4_spanning_record_lost :
    tlsMultiFactory (c4d1 ++ c4d2) = .ok ([⟨23, 3, 1, [3, 1, 0, 0, 9]⟩], 10) ∧
    c4r2.raw_sent = [3, 1, 0, 0, 9] ∧
    c4r2.sentQ = [⟨5, 3, 1, []⟩] ∧
    c4r2.raw_sent ≠ [] ∧
    ¬ (⟨23, 3, 1, [3, 1, 0, 0, 9]⟩ : TLSRec) ∈ c4r2.sentQ := by decide

/-- C5 counterexample: duplicating the subset consisting of the request
segment and the server acknowledgement, with the duplicates arriving
after the original was released, re-stores and re-releases the payload,
so the output events differ from the run without duplicates. -/
theorem c5_late_duplicate_changes_output :
    toutEvs (tcpRunAll (mkTCP c2flow (.h 0)) c5dup) ≠
      toutEvs (tcpRunAll (mkTCP c2flow (.h 0)) c5base) ∧
    toutEvs (tcpRunAll (mkTCP c2flow (.h 0)) c5dup) =
      [⟨c2flow, some 1, "tcp", REQ ++ REQ, [], none⟩] := by decide

/-- C5 amended: a duplicate data segment whose original is still stored
under its end-sequence key leaves the stored maps untouched (the stored
copy is never replaced) and is logged at warning level when its length
differs from the stored copy and at debug level when equal; duplicating
the request segment of the clean GET flow immediately after its original,
with equal or extended length, yields bit-identical output events with
exactly the corresponding debug or warning retransmission log. -/
theorem c5_duplicate_no_replace_amended (st : TCP) (ts : Nat) (seg : Seg)
    (evs : List Event) (dup : Packet)
    (h : alFind st.packets (seg.seq + (seg.data.length : Int), seg.ack) = some dup) :
    connStore st ts seg evs = .ok ⟨st, evs,
      [.retrans (if dup.data.length ≠ seg.data.length then .warning else .debug)
        dup.data.length seg.data.length]⟩ ∧
    toutEvs (tcpRunAll (mkTCP c2flow (.h 0)) c2dupSegs) =
      toutEvs (tcpRunAll (mkTCP c2flow (.h 0)) c2segs) ∧
    toutLogs (tcpRunAll (mkTCP c2flow (.h 0)) c2dupSegs) = [.retrans .debug 27 27] ∧
    toutEvs (tcpRunAll (mkTCP c2flow (.h 0)) c2dup3Segs) =
      toutEvs (tcpRunAll (mkTCP c2flow (.h 0)) c2segs) ∧
    toutLogs (tcpRunAll (mkTCP c2flow (.h 0)) c2dup3Segs) = [.retrans .warning 27 28] := by
  refine ⟨by simp [connStore, h], by decide, by decide, by decide, by decide⟩

/-- C5 witness: the amended theorem applied to the Conn state holding the
stored request while its equal-length duplicate arrives. -/
theorem c5_witness :
    connStore c5wSt 6 (mseg 101 201 24 REQ) [] =
      .ok ⟨c5wSt, [], [.retrans .debug 27 27]⟩ :=
  (c5_duplicate_no_replace_amended c5wSt 6 (mseg 101 201 24 REQ) [] ⟨REQ, 4⟩
    (by decide)).1

/-- C6 counterexample: with handlers registered for both the destination
port 80 and the source port 1234 of the flow, the handler chosen (both by
TCPPacketStreamer.handler and when the SYN creates the stream) is the
source-port handler 2, not the destination-port handler 1 as the claim
states. -/
theorem c6_srcport_preference_counterexample :
    (handlerFor c6handlers c6sn).1 = .h 2 ∧
    (handlerFor c6handlers c6sn).1 ≠ .h 1 ∧
    (match streamerProcess ⟨[], c6handlers⟩ 1 "10.0.0.1" "10.0.0.2" c6syn with
     | .ok r => (alFind r.1.streams c6sn).map TCP.hid
     | .error _ => none) = some (.h 2) := by decide

/-- C6 amended: handler selection checks the source port first: whenever
the registration map has a handler for the source port, that handler is
chosen, whatever is registered for the destination port; destination port
and the generic entry are only consulted after that. -/
theorem c6_handler_priority_amended (hs : List (HKey × Nat)) (a b : String)
    (sp dp v : Nat) (h : alFind hs (.port sp) = some v) :
    (handlerFor hs (a, sp, b, dp)).1 = .h v := by
  simp [handlerFor, h]

/-- C6 witness: the amended theorem applied to the concrete registration
map holding handlers for both ports. -/
theorem c6_witness :
    (handlerFor c6handlers ("10.0.0.1", 1234, "10.0.0.2", 80)).1 = .h 2 :=
  c6_handler_priority_amended c6handlers "10.0.0.1" "10.0.0.2" 1234 80 2 rfl

/-- C7 counterexample: the first delivered pair fails framing and is
forwarded as-is, but the next pair of the same flow is not forwarded (no
event at all is emitted for it); instead a fresh framing attempt queues
its record and the state machine stays in its init state, so the stream
did not become a passthrough as the claim states. -/
theorem c7_no_passthrough_counterexample :
    tlsResEvs c7r1 = [⟨c2flow, some 1, "tcp", c7bad, [], none⟩] ∧
    tlsResEvs c7r2 = [] ∧
    (tlsResSt c7st0 c7r2).sentQ = [⟨23, 3, 1, [7, 7]⟩] ∧
    (tlsResSt c7st0 c7r2).tag = .tInit := by decide

/-- C7 amended: a pair on which TLS record framing of the sent chunk
fails is forwarded upward as-is and the only state change is the sent
bytes accumulating in raw_sent; no passthrough state exists, so a
subsequent well-formed pair is framed into the record queue again and not
forwarded. -/
theorem c7_framing_failure_forward_amended (st : TLSState) (s : Four) (ts : Nat)
    (sent recv : Bytes) (h : tlsMultiFactory sent = .error ()) :
    tlsHandle st s ts "tcp" sent recv none =
      .ok ({ st with raw_sent := st.raw_sent ++ sent },
           [⟨s, some ts, "tcp", sent, recv, none⟩], []) ∧
    tlsResEvs c7r2 = [] ∧
    (tlsResSt c7st0 c7r2).sentQ = [⟨23, 3, 1, [7, 7]⟩] := by
  refine ⟨by simp [tlsHandle, h], by decide, by decide⟩

/-- C7 witness: the amended theorem applied to the unframeable first
delivery of the concrete scenario. -/
theorem c7_witness :
    tlsHandle c7st0 c2flow 1 "tcp" c7bad [] none =
      .ok ({ c7st0 with raw_sent := c7st0.raw_sent ++ c7bad },
           [⟨c2flow, some 1, "tcp", c7bad, [], none⟩], []) :=
  (c7_framing_failure_forward_amended c7st0 c2flow 1 c7bad [] (by decide)).1

/-- C8 counterexample: the TLS layer emits a tls event carrying a TLSInfo
value, but PcapReader.handle yields a 5-tuple without it: the value
appended for that event is (flow, ts, tls, sent, recv), and the appended
value is identical whether the tlsinfo argument is that TLSInfo or None,
so the tls_info value is not present in the yielded tuple. -/
theorem c8_tlsinfo_dropped_counterexample :
    tlsResEvs c8run =
      [⟨c2flow, some 5, "tls", [9, 9], [8, 8],
        some ⟨none, none, none, none, none, none⟩⟩] ∧
    (readerDeliver c8rd (tlsResEvs c8run)).values =
      [(c2flow, some 5, "tls", [9, 9], [8, 8])] ∧
    readerHandle c8rd c2flow (some 5) "tls" [9, 9] [8, 8]
        (some ⟨none, none, none, none, none, none⟩) =
      readerHandle c8rd c2flow (some 5) "tls" [9, 9] [8, 8] none := by decide

/-- C8 amended: every event yielded by PcapReader is the 5-tuple
(flow key, timestamp, protocol tag, sent bytes, recv bytes);
PcapReader.handle discards the tlsinfo argument passed by the TLS
layer. -/
theorem c8_event_five_tuple_amended (rd : Reader) (s : Four) (ts : Option Nat)
    (protocol : String) (sent recv : Bytes) (ti : Option TLSInfo) :
    readerHandle rd s ts protocol sent recv ti =
      { rd with values := rd.values ++ [(s, ts, protocol, sent, recv)] } := rfl

/-- C9: in the Conn state, three same-ack payload segments covering
[1000, 1100), [1200, 1300) and [1100, 1200), arriving in that order,
followed by one cumulative ACK of 1300 from the server, release exactly
the three payloads appended to sent in sequence-number order
1000, 1100, 1200. -/
theorem c9_out_of_order_release (A B C : Bytes)
    (hA : A.length = 100) (hB : B.length = 100) (hC : C.length = 100) :
    (toutSt c9conn (tcpRunFrom c9conn (c9segsOf A B C))).sent =
      [⟨A, 1⟩, ⟨C, 3⟩, ⟨B, 2⟩] ∧
    joinP (toutSt c9conn (tcpRunFrom c9conn (c9segsOf A B C))).sent = A ++ C ++ B ∧
    toutOk (tcpRunFrom c9conn (c9segsOf A B C)) = true := by
  have hA0 : A ≠ [] := fun hh => by rw [hh] at hA; simp at hA
  have hB0 : B ≠ [] := fun hh => by rw [hh] at hB; simp at hB
  have hC0 : C ≠ [] := fun hh => by rw [hh] at hC; simp at hC
  refine ⟨?_, ?_, ?_⟩ <;>
    simp [hA0, hB0, hC0, bind, Except.bind, c9segsOf, c9conn, tcpRunFrom,
      tcpProcess, stateConn, connStore, ack_packets, ackLoop, alFind, alErase,
      alInsert, mseg, toutSt, toutOk, joinP, tsFalsy, hA, hB, hC,
      (by decide : Nat.land 24 16 ≠ 0), (by decide : Nat.land 24 4 = 0),
      (by decide : Nat.land 24 1 = 0), (by decide : Nat.land 16 16 ≠ 0),
      (by decide : Nat.land 16 4 = 0), (by decide : Nat.land 16 1 = 0)]

/-- C9 witness: the theorem applied to three concrete length-100
payloads. -/
theorem c9_witness :
    (toutSt c9conn (tcpRunFrom c9conn (c9segsOf pA pB pC))).sent =
      [⟨pA, 1⟩, ⟨pC, 3⟩, ⟨pB, 2⟩] :=
  (c9_out_of_order_release pA pB pC (by decide) (by decide) (by decide)).1

/-- C10: when the underlying pcap reader rejects the file header (any
ValueError message, for example the invalid tcpdump header of a PCAP-NG
file), the PcapReader constructor catches it and stores None; process
then returns immediately, raising nothing and yielding no events. -/
theorem c10_rejected_pcap_no_events (e : String) (sm : Option Streamer) (rex : Bool) :
    readerRun (pcapReaderInit (.error e) sm rex).1 =
      .ok ((pcapReaderInit (.error e) sm rex).1, []) ∧
    ((pcapReaderInit (.error e) sm rex).1).values = [] :=
  ⟨rfl, rfl⟩
